import Mathlib

/-!
Shallow embedding of the session/token core of `src/controller/auth-controller.ts`
(class `AuthController`): register, login, self, refreshTokenGenerate, logout,
together with the collaborator contracts the controller consumes (refresh token
store, user directory, credential verifier, token signer), which are modelled
from the specification where their implementation is not part of the sources.

Modelling conventions:
* The embedding is sequential and purely functional: each handler maps an
  environment (user directory + refresh token store + clock) to a result,
  the successor environment and the ordered list of side effects it performed.
  An effect listed in `StepResult.events` happened before the handler produced
  its result, and list order is execution order.
* The source converts numeric ids to decimal strings (`String(user.id)`,
  `String(newRefreshToken.id)`) when placing them in JWT claims, and the
  (spec-modelled) services parse them back. The decimal encoding is injective
  and never inspected, so the model identifies a numeral string with its
  number: claim fields `sub` and `id` are `Nat`.
* Express cookie `maxAge` is in milliseconds; the model keeps the millisecond
  values of the source.
-/

/-- User record as produced by the user directory (spec section 3):
id, email, display name, stored password hash, bio, profile image link. -/
structure User where
  id : Nat
  userName : String
  email : String
  password : String
  bio : String
  profileImage : String
deriving Repr, DecidableEq

/-- Modelled from the spec: RefreshTokenRecord — `id` (unique, server
generated), `userId` (owning user), `expiresAt` (issuance + fixed TTL). -/
structure RefreshTokenRecord where
  id : Nat
  userId : Nat
  expiresAt : Nat
deriving Repr, DecidableEq

/-- Modelled from the spec: the Refresh Token Store, the only durable state the
core owns.  `records` holds the live rows; `nextId` is the id allocator
backing the unique-id guarantee of `create`. -/
structure RefreshTokenStore where
  records : List RefreshTokenRecord
  nextId : Nat
deriving Repr, DecidableEq

/-- Modelled from the spec: refresh record TTL, canonically 1 year (seconds). -/
def refreshTokenTTL : Nat := 31536000

/-- Modelled from the spec: `create(userId) -> record` allocates a new unique
id, sets expiry = now + TTL, persists, returns the record. -/
def RefreshTokenStore.create (s : RefreshTokenStore) (userId now : Nat) :
    RefreshTokenRecord × RefreshTokenStore :=
  let r : RefreshTokenRecord :=
    { id := s.nextId, userId := userId, expiresAt := now + refreshTokenTTL }
  (r, { records := r :: s.records, nextId := s.nextId + 1 })

/-- Modelled from the spec: `findById(id) -> record | null`. -/
def RefreshTokenStore.findById (s : RefreshTokenStore) (i : Nat) :
    Option RefreshTokenRecord :=
  s.records.find? (fun r => r.id == i)

/-- Modelled from the spec: `deleteById(id) -> void`, idempotent — deleting an
absent id is not an error. -/
def RefreshTokenStore.deleteById (s : RefreshTokenStore) (i : Nat) :
    RefreshTokenStore :=
  { records := s.records.filter (fun r => r.id != i), nextId := s.nextId }

/-- Store well-formedness: every persisted id was allocated below the
allocator, so freshly created ids never collide with existing records. -/
def RefreshTokenStore.WF (s : RefreshTokenStore) : Prop :=
  ∀ r ∈ s.records, r.id < s.nextId

instance (s : RefreshTokenStore) : Decidable s.WF := by
  unfold RefreshTokenStore.WF
  infer_instance

/-- JWT claims as built by the controller: `sub` and `email` always, `id`
(the bound refresh record) only on refresh tokens. -/
structure JwtPayload where
  sub : Nat
  email : String
  id : Option Nat
deriving Repr, DecidableEq

/-- Modelled from the spec: a signed access token round-trips to the claims it
was minted from, so the model carries the claims themselves. -/
structure AccessToken where
  claims : JwtPayload
deriving Repr, DecidableEq

/-- Modelled from the spec: a signed refresh token round-trips to its claims,
including the bound record id. -/
structure RefreshToken where
  claims : JwtPayload
deriving Repr, DecidableEq

/-- Modelled from the spec: `jwtTokenService.generateAccessToken`. -/
def generateAccessToken (p : JwtPayload) : AccessToken :=
  { claims := p }

/-- Modelled from the spec: `jwtTokenService.generateRefreshToken`. -/
def generateRefreshToken (p : JwtPayload) : RefreshToken :=
  { claims := p }

/-- Cookie attributes, as passed to `res.cookie` (maxAge in milliseconds). -/
structure CookieOptions where
  domain : String
  sameSite : String
  maxAgeMs : Nat
  httpOnly : Bool
deriving Repr, DecidableEq

/-- The value carried by a cookie set by the controller. -/
inductive CookieValue where
  | access (t : AccessToken)
  | refresh (t : RefreshToken)
deriving Repr, DecidableEq

/-- One `res.cookie(name, value, options)` call. -/
structure SetCookie where
  name : String
  value : CookieValue
  options : CookieOptions
deriving Repr, DecidableEq

/-- Embeds `AuthController.setCookies` (auth-controller.ts lines 24-42):
accessToken with maxAge 60 minutes, refreshToken with maxAge 1 year, both
domain localhost, sameSite strict, httpOnly. -/
def setCookies (accessToken : AccessToken) (refreshToken : RefreshToken) :
    List SetCookie :=
  [ { name := "accessToken", value := CookieValue.access accessToken,
      options := { domain := "localhost", sameSite := "strict",
                   maxAgeMs := 1000 * 60 * 60, httpOnly := true } },
    { name := "refreshToken", value := CookieValue.refresh refreshToken,
      options := { domain := "localhost", sameSite := "strict",
                   maxAgeMs := 1000 * 60 * 60 * 24 * 365, httpOnly := true } } ]

/-- Response body variants produced by the controller endpoints. -/
inductive ResponseBody where
  | jsonId (id : Nat)
  | jsonUser (u : Option User)
  | jsonMessage (m : String)
deriving Repr, DecidableEq

/-- A completed successful HTTP response: status, cookies set, cookies
cleared, JSON body. -/
structure HttpResponse where
  status : Nat
  cookiesSet : List SetCookie
  cookiesCleared : List String
  body : ResponseBody
deriving Repr, DecidableEq

/-- An error handed to `next(createHttpError(status, message))`. -/
structure HttpError where
  status : Nat
  message : String
deriving Repr, DecidableEq

/-- Outcome of a handler: a response or an error. -/
inductive HttpResult where
  | ok (r : HttpResponse)
  | err (e : HttpError)
deriving Repr, DecidableEq

/-- Observable side effects of a handler, in execution order. -/
inductive Event where
  | passwordHashed
  | userCreated (userId : Nat)
  | recordCreated (recordId : Nat)
  | recordDeleted (recordId : Nat)
deriving Repr, DecidableEq

/-- The state a request executes against: user directory (with its id
allocator), refresh token store, current time. -/
structure AuthEnv where
  users : List User
  nextUserId : Nat
  store : RefreshTokenStore
  now : Nat
deriving Repr, DecidableEq

/-- Result of one handler invocation: outcome, successor state, effects. -/
structure StepResult where
  result : HttpResult
  env : AuthEnv
  events : List Event
deriving Repr, DecidableEq

/-- Modelled from the spec: user directory `findByEmail(email) -> User|null`. -/
def findByEmail (users : List User) (email : String) : Option User :=
  users.find? (fun u => u.email == email)

/-- Modelled from the spec: user directory `findById(id) -> User|null`.  The
source passes the decimal string `auth.sub`; the model identifies it with the
numeric id. -/
def findUserById (users : List User) (sub : Nat) : Option User :=
  users.find? (fun u => u.id == sub)

/-- Modelled from the spec: Credential Verifier `hash` — deterministic one-way
transform; modelled as an injective tagging of the secret. -/
def hashPassword (secret : String) : String :=
  String.append "hashed:" secret

/-- Modelled from the spec: Credential Verifier `verify(secret, hash)` — true
exactly when the secret hashes to the stored hash. -/
def comparePassword (secret storedHash : String) : Bool :=
  hashPassword secret == storedHash

/-- Modelled from the spec: `jwtTokenService.persistRefreshToken(user)`
delegates to `Store.create(userId)`. -/
def persistRefreshToken (s : RefreshTokenStore) (user : User) (now : Nat) :
    RefreshTokenRecord × RefreshTokenStore :=
  s.create user.id now

/-- Modelled from the spec: `jwtTokenService.deleteRefreshToken(id)` delegates
to `Store.deleteById`. -/
def deleteRefreshToken (s : RefreshTokenStore) (i : Nat) : RefreshTokenStore :=
  s.deleteById i

/-- Input of `register`: the express-validator outcome for the request plus
the request body fields and the uploaded file path. -/
structure RegisterInput where
  validationErrors : List String
  userName : String
  email : String
  password : String
  bio : String
  profileImagePath : Option String
deriving Repr, DecidableEq

/-- Input of `login`: validator outcome plus body fields. -/
structure LoginInput where
  validationErrors : List String
  email : String
  password : String
deriving Repr, DecidableEq

/-- Embeds `AuthController.register` (auth-controller.ts lines 44-103).
`upload` is the blob storage collaborator (`imageStorage.upload`), returning
the url on success.  The user directory `createUser` allocates the next user
id and appends the record. -/
def register (upload : String → Option String) (input : RegisterInput)
    (env : AuthEnv) : StepResult :=
  match input.validationErrors with
  | m :: _ =>
    { result := HttpResult.err { status := 400, message := m },
      env := env, events := [] }
  | [] =>
    let hashedPassword := hashPassword input.password
    match input.profileImagePath with
    | none =>
      { result := HttpResult.err { status := 400, message := "Please Upload Image" },
        env := env, events := [Event.passwordHashed] }
    | some path =>
      match upload path with
      | none =>
        { result := HttpResult.err { status := 500, message := "Failed to upload image" },
          env := env, events := [Event.passwordHashed] }
      | some url =>
        let user : User :=
          { id := env.nextUserId, userName := input.userName,
            email := input.email, password := hashedPassword,
            bio := input.bio, profileImage := url }
        let payload : JwtPayload := { sub := user.id, email := user.email, id := none }
        let accessToken := generateAccessToken payload
        let created := persistRefreshToken env.store user env.now
        let refreshToken := generateRefreshToken { payload with id := some created.1.id }
        { result := HttpResult.ok
            { status := 201, cookiesSet := setCookies accessToken refreshToken,
              cookiesCleared := [], body := ResponseBody.jsonId user.id },
          env := { env with
                   users := env.users ++ [user],
                   nextUserId := env.nextUserId + 1,
                   store := created.2 },
          events := [Event.passwordHashed, Event.userCreated user.id,
                     Event.recordCreated created.1.id] }

/-- Embeds `AuthController.login` (auth-controller.ts lines 106-157). -/
def login (input : LoginInput) (env : AuthEnv) : StepResult :=
  match input.validationErrors with
  | m :: _ =>
    { result := HttpResult.err { status := 400, message := m },
      env := env, events := [] }
  | [] =>
    match findByEmail env.users input.email with
    | none =>
      { result := HttpResult.err
          { status := 400, message := "Email and password not match!" },
        env := env, events := [] }
    | some user =>
      if comparePassword input.password user.password then
        let payload : JwtPayload := { sub := user.id, email := user.email, id := none }
        let accessToken := generateAccessToken payload
        let created := persistRefreshToken env.store user env.now
        let refreshToken := generateRefreshToken { payload with id := some created.1.id }
        { result := HttpResult.ok
            { status := 200, cookiesSet := setCookies accessToken refreshToken,
              cookiesCleared := [], body := ResponseBody.jsonId user.id },
          env := { env with store := created.2 },
          events := [Event.recordCreated created.1.id] }
      else
        { result := HttpResult.err
            { status := 400, message := "Email and password not match!" },
          env := env, events := [] }

/-- Embeds `AuthController.self` (auth-controller.ts lines 160-164): returns
the raw user directory lookup for the authenticated `sub` as the body. -/
def self (auth : JwtPayload) (env : AuthEnv) : StepResult :=
  { result := HttpResult.ok
      { status := 200, cookiesSet := [], cookiesCleared := [],
        body := ResponseBody.jsonUser (findUserById env.users auth.sub) },
    env := env, events := [] }

/-- Embeds `AuthController.refreshTokenGenerate` (auth-controller.ts lines
167-201).  The source asserts `auth.id!` non-null; the model defaults an
absent id to 0, and every theorem about this handler assumes the id present. -/
def refreshTokenGenerate (auth : JwtPayload) (env : AuthEnv) : StepResult :=
  let payload : JwtPayload := { sub := auth.sub, email := auth.email, id := none }
  let accessToken := generateAccessToken payload
  match findUserById env.users auth.sub with
  | none =>
    { result := HttpResult.err
        { status := 400, message := "User with token could not found" },
      env := env, events := [] }
  | some user =>
    let created := persistRefreshToken env.store user env.now
    let store2 := deleteRefreshToken created.2 (auth.id.getD 0)
    let refreshToken := generateRefreshToken { payload with id := some created.1.id }
    { result := HttpResult.ok
        { status := 200, cookiesSet := setCookies accessToken refreshToken,
          cookiesCleared := [],
          body := ResponseBody.jsonMessage "new refresh token generateds" },
      env := { env with store := store2 },
      events := [Event.recordCreated created.1.id,
                 Event.recordDeleted (auth.id.getD 0)] }

/-- Embeds `AuthController.logout` (auth-controller.ts lines 204-213). -/
def logout (auth : JwtPayload) (env : AuthEnv) : StepResult :=
  let store1 := deleteRefreshToken env.store (auth.id.getD 0)
  { result := HttpResult.ok
      { status := 200, cookiesSet := [],
        cookiesCleared := ["accessToken", "refreshToken"],
        body := ResponseBody.jsonMessage "Successfully logged out" },
    env := { env with store := store1 },
    events := [Event.recordDeleted (auth.id.getD 0)] }

/-! ## Store lemmas shared by the claim theorems -/

/-- Deleting an id removes every record with that id: a subsequent lookup of
the deleted id misses. -/
theorem RefreshTokenStore.findById_deleteById_self (s : RefreshTokenStore)
    (i : Nat) : (s.deleteById i).findById i = none := by
  simp only [RefreshTokenStore.findById, RefreshTokenStore.deleteById]
  rw [List.find?_eq_none]
  intro r hr
  have hne := (List.mem_filter.mp hr).2
  simpa using hne

/-- Sample fixtures used by the witness theorems. -/
def sampleUser : User :=
  { id := 1, userName := "alice", email := "alice@mail.test",
    password := "hashed:pw", bio := "bio", profileImage := "img" }

/-- Sample store holding one record, id 0, owned by sampleUser. -/
def sampleStore : RefreshTokenStore :=
  { records := [{ id := 0, userId := 1, expiresAt := 100 }], nextId := 1 }

/-- Sample environment for the witnesses. -/
def sampleEnv : AuthEnv :=
  { users := [sampleUser], nextUserId := 2, store := sampleStore, now := 50 }

/-- Sample blob storage collaborator that accepts every upload. -/
def sampleUpload : String → Option String :=
  fun _ => some "http://img.test/p.png"

/-! ## Claim theorems -/

/-- Claim C1: a successful refresh creates the new record first, then deletes
the old record (the id carried in the presented claims), and both effects
precede the success result; afterwards findById of the old id misses while
findById of the new id returns the freshly persisted record. -/
theorem refresh_rotates_record
    (auth : JwtPayload) (env : AuthEnv) (oldRec : RefreshTokenRecord) (user : User)
    (hwf : env.store.WF)
    (hold : env.store.findById oldRec.id = some oldRec)
    (hid : auth.id = some oldRec.id)
    (huser : findUserById env.users auth.sub = some user) :
    (∃ resp, (refreshTokenGenerate auth env).result = HttpResult.ok resp) ∧
    (refreshTokenGenerate auth env).events =
      [Event.recordCreated env.store.nextId, Event.recordDeleted oldRec.id] ∧
    (refreshTokenGenerate auth env).env.store.findById oldRec.id = none ∧
    (refreshTokenGenerate auth env).env.store.findById env.store.nextId =
      some { id := env.store.nextId, userId := user.id,
             expiresAt := env.now + refreshTokenTTL } := by
  have hmem : oldRec ∈ env.store.records := List.mem_of_find?_eq_some hold
  have hlt : oldRec.id < env.store.nextId := hwf oldRec hmem
  have hne : env.store.nextId ≠ oldRec.id := fun h => absurd h.symm (Nat.ne_of_lt hlt)
  refine ⟨?_, ?_, ?_, ?_⟩
  · simp [refreshTokenGenerate, huser]
  · simp [refreshTokenGenerate, huser, hid, persistRefreshToken,
          RefreshTokenStore.create]
  · simp only [refreshTokenGenerate, huser, deleteRefreshToken, hid]
    exact RefreshTokenStore.findById_deleteById_self _ _
  · simp [refreshTokenGenerate, huser, hid, persistRefreshToken,
          RefreshTokenStore.create, deleteRefreshToken,
          RefreshTokenStore.deleteById, RefreshTokenStore.findById,
          List.filter_cons, List.find?_cons, hne]

/-- Closed instance of refresh_rotates_record on the sample environment. -/
theorem refresh_rotates_record_witness :
    (sampleEnv.store.WF ∧
      sampleEnv.store.findById 0 = some { id := 0, userId := 1, expiresAt := 100 } ∧
      findUserById sampleEnv.users 1 = some sampleUser) ∧
    ((∃ resp, (refreshTokenGenerate { sub := 1, email := "alice@mail.test", id := some 0 } sampleEnv).result = HttpResult.ok resp) ∧
     (refreshTokenGenerate { sub := 1, email := "alice@mail.test", id := some 0 } sampleEnv).events =
       [Event.recordCreated sampleEnv.store.nextId, Event.recordDeleted 0] ∧
     (refreshTokenGenerate { sub := 1, email := "alice@mail.test", id := some 0 } sampleEnv).env.store.findById 0 = none ∧
     (refreshTokenGenerate { sub := 1, email := "alice@mail.test", id := some 0 } sampleEnv).env.store.findById sampleEnv.store.nextId =
       some { id := sampleEnv.store.nextId, userId := sampleUser.id,
              expiresAt := sampleEnv.now + refreshTokenTTL }) :=
  ⟨⟨by decide, by decide, by decide⟩,
   refresh_rotates_record { sub := 1, email := "alice@mail.test", id := some 0 }
     sampleEnv { id := 0, userId := 1, expiresAt := 100 } sampleUser
     (by decide) (by decide) rfl (by decide)⟩

/-- Claim C2: a login for an unknown email and a login for a known email with
a wrong secret fail with the same error: status 400 and the same message, so
the two failure causes are indistinguishable to the caller. -/
theorem login_enumeration_resistance
    (env : AuthEnv) (email1 pass1 email2 pass2 : String) (u : User)
    (h1 : findByEmail env.users email1 = none)
    (h2 : findByEmail env.users email2 = some u)
    (h3 : comparePassword pass2 u.password = false) :
    (login { validationErrors := [], email := email1, password := pass1 } env).result =
      HttpResult.err { status := 400, message := "Email and password not match!" } ∧
    (login { validationErrors := [], email := email2, password := pass2 } env).result =
      HttpResult.err { status := 400, message := "Email and password not match!" } := by
  constructor
  · simp [login, h1]
  · simp [login, h2, h3]

/-- Closed instance of login_enumeration_resistance on the sample directory. -/
theorem login_enumeration_resistance_witness :
    (findByEmail sampleEnv.users "ghost@mail.test" = none ∧
      findByEmail sampleEnv.users "alice@mail.test" = some sampleUser ∧
      comparePassword "wrongpw" sampleUser.password = false) ∧
    ((login { validationErrors := [], email := "ghost@mail.test", password := "anything" } sampleEnv).result =
       HttpResult.err { status := 400, message := "Email and password not match!" } ∧
     (login { validationErrors := [], email := "alice@mail.test", password := "wrongpw" } sampleEnv).result =
       HttpResult.err { status := 400, message := "Email and password not match!" }) :=
  ⟨⟨by decide, by decide, by decide⟩,
   login_enumeration_resistance sampleEnv "ghost@mail.test" "anything"
     "alice@mail.test" "wrongpw" sampleUser (by decide) (by decide) (by decide)⟩

/-- Claim C4: logout deletes the refresh record named by the presented claim
id and clears both cookies, all before the success confirmation. -/
theorem logout_deletes_record_and_clears_cookies
    (auth : JwtPayload) (env : AuthEnv) (tid : Nat)
    (hid : auth.id = some tid) :
    (logout auth env).result = HttpResult.ok
      { status := 200, cookiesSet := [],
        cookiesCleared := ["accessToken", "refreshToken"],
        body := ResponseBody.jsonMessage "Successfully logged out" } ∧
    (logout auth env).events = [Event.recordDeleted tid] ∧
    (logout auth env).env.store = env.store.deleteById tid ∧
    (logout auth env).env.store.findById tid = none := by
  refine ⟨rfl, ?_, ?_, ?_⟩
  · simp [logout, hid]
  · simp [logout, hid, deleteRefreshToken]
  · simp only [logout, hid, deleteRefreshToken, Option.getD_some]
    exact RefreshTokenStore.findById_deleteById_self _ _

/-- Closed instance of logout_deletes_record_and_clears_cookies. -/
theorem logout_deletes_record_and_clears_cookies_witness :
    ((JwtPayload.mk 1 "alice@mail.test" (some 0)).id = some 0) ∧
    ((logout { sub := 1, email := "alice@mail.test", id := some 0 } sampleEnv).result = HttpResult.ok
       { status := 200, cookiesSet := [],
         cookiesCleared := ["accessToken", "refreshToken"],
         body := ResponseBody.jsonMessage "Successfully logged out" } ∧
     (logout { sub := 1, email := "alice@mail.test", id := some 0 } sampleEnv).events = [Event.recordDeleted 0] ∧
     (logout { sub := 1, email := "alice@mail.test", id := some 0 } sampleEnv).env.store = sampleEnv.store.deleteById 0 ∧
     (logout { sub := 1, email := "alice@mail.test", id := some 0 } sampleEnv).env.store.findById 0 = none) :=
  ⟨rfl,
   logout_deletes_record_and_clears_cookies
     { sub := 1, email := "alice@mail.test", id := some 0 } sampleEnv 0 rfl⟩

/-- Claim C6: when request validation reports at least one violation, register
and login fail with status 400 carrying the first violation message, and the
call performs no effect: the environment is unchanged and no hashing, user
creation or record persistence happens. -/
theorem validation_failure_rejects_without_effects
    (upload : String → Option String) (rin : RegisterInput) (lin : LoginInput)
    (envr envl : AuthEnv) (m1 m2 : String) (rest1 rest2 : List String)
    (h1 : rin.validationErrors = m1 :: rest1)
    (h2 : lin.validationErrors = m2 :: rest2) :
    register upload rin envr =
      { result := HttpResult.err { status := 400, message := m1 },
        env := envr, events := [] } ∧
    login lin envl =
      { result := HttpResult.err { status := 400, message := m2 },
        env := envl, events := [] } := by
  constructor
  · simp [register, h1]
  · simp [login, h2]

/-- Closed instance of validation_failure_rejects_without_effects. -/
theorem validation_failure_rejects_without_effects_witness :
    ((RegisterInput.mk ["email required"] "bob" "bob@mail.test" "pw" "b" none).validationErrors = "email required" :: [] ∧
      (LoginInput.mk ["password required"] "alice@mail.test" "pw").validationErrors = "password required" :: []) ∧
    (register sampleUpload { validationErrors := ["email required"], userName := "bob", email := "bob@mail.test", password := "pw", bio := "b", profileImagePath := none } sampleEnv =
       { result := HttpResult.err { status := 400, message := "email required" },
         env := sampleEnv, events := [] } ∧
     login { validationErrors := ["password required"], email := "alice@mail.test", password := "pw" } sampleEnv =
       { result := HttpResult.err { status := 400, message := "password required" },
         env := sampleEnv, events := [] }) :=
  ⟨⟨rfl, rfl⟩,
   validation_failure_rejects_without_effects sampleUpload
     { validationErrors := ["email required"], userName := "bob", email := "bob@mail.test", password := "pw", bio := "b", profileImagePath := none }
     { validationErrors := ["password required"], email := "alice@mail.test", password := "pw" }
     sampleEnv sampleEnv "email required" "password required" [] [] rfl rfl⟩

/-- Claim C9: self returns exactly the user directory lookup for the token
sub as the body — the full stored record (password hash included) when the
user exists, the null value when not — and changes no state. -/
theorem self_returns_directory_lookup (auth : JwtPayload) (env : AuthEnv) :
    self auth env =
      { result := HttpResult.ok
          { status := 200, cookiesSet := [], cookiesCleared := [],
            body := ResponseBody.jsonUser (findUserById env.users auth.sub) },
        env := env, events := [] } :=
  rfl

/-- Claim C10: refresh with a sub that has no user in the directory fails
with status 400 and leaves everything untouched: same environment (so the
store is unchanged), no events, and no response carrying cookies. -/
theorem refresh_unknown_user_rejected
    (auth : JwtPayload) (env : AuthEnv)
    (h : findUserById env.users auth.sub = none) :
    refreshTokenGenerate auth env =
      { result := HttpResult.err
          { status := 400, message := "User with token could not found" },
        env := env, events := [] } := by
  simp [refreshTokenGenerate, h]

/-- Closed instance of refresh_unknown_user_rejected. -/
theorem refresh_unknown_user_rejected_witness :
    (findUserById sampleEnv.users 99 = none) ∧
    (refreshTokenGenerate { sub := 99, email := "gone@mail.test", id := some 0 } sampleEnv =
      { result := HttpResult.err
          { status := 400, message := "User with token could not found" },
        env := sampleEnv, events := [] }) :=
  ⟨by decide,
   refresh_unknown_user_rejected
     { sub := 99, email := "gone@mail.test", id := some 0 } sampleEnv (by decide)⟩

/-- The step issued a refresh cookie whose claims carry the given subject
fields and the id of the record the step itself persisted (the id allocated
from the pre-state store), and that record is present in the post-state store
with the subject as owner. -/
def BindsFreshRecord (pre : AuthEnv) (st : StepResult) (sub : Nat)
    (email : String) : Prop :=
  ∃ resp,
    st.result = HttpResult.ok resp ∧
    { name := "refreshToken",
      value := CookieValue.refresh (generateRefreshToken
        { sub := sub, email := email, id := some pre.store.nextId }),
      options := { domain := "localhost", sameSite := "strict",
                   maxAgeMs := 1000 * 60 * 60 * 24 * 365, httpOnly := true } }
      ∈ resp.cookiesSet ∧
    ∃ rec, st.env.store.findById pre.store.nextId = some rec ∧
      rec.id = pre.store.nextId ∧ rec.userId = sub

/-- Claim C3: every successful register, login and refresh issues a refresh
token whose id claim equals the id of the refresh record persisted by that
same operation, with sub and email equal to the authenticated identity. -/
theorem issued_refresh_token_binds_persisted_record
    (upload : String → Option String) (rin : RegisterInput) (lin : LoginInput)
    (auth : JwtPayload) (envr envl envf : AuthEnv) (path url : String)
    (lu fu : User) (oldRec : RefreshTokenRecord)
    (hr1 : rin.validationErrors = []) (hr2 : rin.profileImagePath = some path)
    (hr3 : upload path = some url)
    (hl1 : lin.validationErrors = [])
    (hl2 : findByEmail envl.users lin.email = some lu)
    (hl3 : comparePassword lin.password lu.password = true)
    (hf : findUserById envf.users auth.sub = some fu)
    (hwf : envf.store.WF)
    (hold : envf.store.findById oldRec.id = some oldRec)
    (hid : auth.id = some oldRec.id) :
    BindsFreshRecord envr (register upload rin envr) envr.nextUserId rin.email ∧
    BindsFreshRecord envl (login lin envl) lu.id lu.email ∧
    BindsFreshRecord envf (refreshTokenGenerate auth envf) auth.sub auth.email := by
  have hfu : fu.id = auth.sub := by
    have h := List.find?_some hf
    simpa using h
  have hmem : oldRec ∈ envf.store.records := List.mem_of_find?_eq_some hold
  have hne : envf.store.nextId ≠ oldRec.id :=
    fun h => absurd h.symm (Nat.ne_of_lt (hwf oldRec hmem))
  refine ⟨?_, ?_, ?_⟩
  · simp only [BindsFreshRecord, register, hr1, hr2, hr3]
    refine ⟨_, rfl, ?_, ?_⟩
    · simp [setCookies, generateRefreshToken, persistRefreshToken,
            RefreshTokenStore.create]
    · refine ⟨{ id := envr.store.nextId, userId := envr.nextUserId,
                expiresAt := envr.now + refreshTokenTTL }, ?_, rfl, rfl⟩
      simp [persistRefreshToken, RefreshTokenStore.create,
            RefreshTokenStore.findById]
  · simp only [BindsFreshRecord, login, hl1, hl2, hl3, if_true]
    refine ⟨_, rfl, ?_, ?_⟩
    · simp [setCookies, generateRefreshToken, persistRefreshToken,
            RefreshTokenStore.create]
    · refine ⟨{ id := envl.store.nextId, userId := lu.id,
                expiresAt := envl.now + refreshTokenTTL }, ?_, rfl, rfl⟩
      simp [persistRefreshToken, RefreshTokenStore.create,
            RefreshTokenStore.findById]
  · simp only [BindsFreshRecord, refreshTokenGenerate, hf, hid]
    refine ⟨_, rfl, ?_, ?_⟩
    · simp [setCookies, generateRefreshToken, persistRefreshToken,
            RefreshTokenStore.create]
    · refine ⟨{ id := envf.store.nextId, userId := fu.id,
                expiresAt := envf.now + refreshTokenTTL }, ?_, rfl, hfu⟩
      simp [persistRefreshToken, RefreshTokenStore.create,
            deleteRefreshToken, RefreshTokenStore.deleteById,
            RefreshTokenStore.findById, List.filter_cons, List.find?_cons, hne]

/-- Closed instance of issued_refresh_token_binds_persisted_record. -/
theorem issued_refresh_token_binds_persisted_record_witness :
    ((RegisterInput.mk [] "bob" "bob@mail.test" "pw2" "b" (some "p.png")).validationErrors = [] ∧
      (RegisterInput.mk [] "bob" "bob@mail.test" "pw2" "b" (some "p.png")).profileImagePath = some "p.png" ∧
      sampleUpload "p.png" = some "http://img.test/p.png" ∧
      (LoginInput.mk [] "alice@mail.test" "pw").validationErrors = [] ∧
      findByEmail sampleEnv.users "alice@mail.test" = some sampleUser ∧
      comparePassword "pw" sampleUser.password = true ∧
      findUserById sampleEnv.users 1 = some sampleUser ∧
      sampleEnv.store.WF ∧
      sampleEnv.store.findById 0 = some { id := 0, userId := 1, expiresAt := 100 } ∧
      (JwtPayload.mk 1 "alice@mail.test" (some 0)).id = some 0) ∧
    (BindsFreshRecord sampleEnv
       (register sampleUpload (RegisterInput.mk [] "bob" "bob@mail.test" "pw2" "b" (some "p.png")) sampleEnv)
       sampleEnv.nextUserId "bob@mail.test" ∧
     BindsFreshRecord sampleEnv
       (login (LoginInput.mk [] "alice@mail.test" "pw") sampleEnv)
       sampleUser.id sampleUser.email ∧
     BindsFreshRecord sampleEnv
       (refreshTokenGenerate (JwtPayload.mk 1 "alice@mail.test" (some 0)) sampleEnv)
       1 "alice@mail.test") :=
  ⟨⟨rfl, rfl, rfl, rfl, by decide, by decide, by decide, by decide, by decide, rfl⟩,
   issued_refresh_token_binds_persisted_record sampleUpload
     (RegisterInput.mk [] "bob" "bob@mail.test" "pw2" "b" (some "p.png"))
     (LoginInput.mk [] "alice@mail.test" "pw")
     (JwtPayload.mk 1 "alice@mail.test" (some 0))
     sampleEnv sampleEnv sampleEnv "p.png" "http://img.test/p.png"
     sampleUser sampleUser { id := 0, userId := 1, expiresAt := 100 }
     rfl rfl rfl rfl (by decide) (by decide) (by decide) (by decide) (by decide) rfl⟩

/-- The step succeeded and set exactly the access cookie (same-site strict,
http-only, domain-scoped, max-age 3600 seconds expressed in milliseconds) and
the refresh cookie (same attribute class, max-age 31536000 seconds). -/
def CookiesWellSet (st : StepResult) : Prop :=
  ∃ resp a r,
    st.result = HttpResult.ok resp ∧
    resp.cookiesSet =
      [ { name := "accessToken", value := CookieValue.access a,
          options := { domain := "localhost", sameSite := "strict",
                       maxAgeMs := 3600 * 1000, httpOnly := true } },
        { name := "refreshToken", value := CookieValue.refresh r,
          options := { domain := "localhost", sameSite := "strict",
                       maxAgeMs := 31536000 * 1000, httpOnly := true } } ]

/-- Claim C5: every successful register, login and refresh sets the access
cookie same-site strict, http-only, domain-scoped with max-age 3600 seconds,
and the refresh cookie with the same attribute class and max-age 31536000
seconds. -/
theorem issuance_sets_cookie_attributes
    (upload : String → Option String) (rin : RegisterInput) (lin : LoginInput)
    (auth : JwtPayload) (envr envl envf : AuthEnv) (path url : String)
    (lu fu : User)
    (hr1 : rin.validationErrors = []) (hr2 : rin.profileImagePath = some path)
    (hr3 : upload path = some url)
    (hl1 : lin.validationErrors = [])
    (hl2 : findByEmail envl.users lin.email = some lu)
    (hl3 : comparePassword lin.password lu.password = true)
    (hf : findUserById envf.users auth.sub = some fu) :
    CookiesWellSet (register upload rin envr) ∧
    CookiesWellSet (login lin envl) ∧
    CookiesWellSet (refreshTokenGenerate auth envf) := by
  refine ⟨?_, ?_, ?_⟩
  · simp only [CookiesWellSet, register, hr1, hr2, hr3]
    exact ⟨_, _, _, rfl, rfl⟩
  · simp only [CookiesWellSet, login, hl1, hl2, hl3, if_true]
    exact ⟨_, _, _, rfl, rfl⟩
  · simp only [CookiesWellSet, refreshTokenGenerate, hf]
    exact ⟨_, _, _, rfl, rfl⟩

/-- Closed instance of issuance_sets_cookie_attributes. -/
theorem issuance_sets_cookie_attributes_witness :
    ((RegisterInput.mk [] "bob" "bob@mail.test" "pw2" "b" (some "p.png")).validationErrors = [] ∧
      (RegisterInput.mk [] "bob" "bob@mail.test" "pw2" "b" (some "p.png")).profileImagePath = some "p.png" ∧
      sampleUpload "p.png" = some "http://img.test/p.png" ∧
      (LoginInput.mk [] "alice@mail.test" "pw").validationErrors = [] ∧
      findByEmail sampleEnv.users "alice@mail.test" = some sampleUser ∧
      comparePassword "pw" sampleUser.password = true ∧
      findUserById sampleEnv.users 1 = some sampleUser) ∧
    (CookiesWellSet (register sampleUpload (RegisterInput.mk [] "bob" "bob@mail.test" "pw2" "b" (some "p.png")) sampleEnv) ∧
     CookiesWellSet (login (LoginInput.mk [] "alice@mail.test" "pw") sampleEnv) ∧
     CookiesWellSet (refreshTokenGenerate (JwtPayload.mk 1 "alice@mail.test" (some 0)) sampleEnv)) :=
  ⟨⟨rfl, rfl, rfl, rfl, by decide, by decide, by decide⟩,
   issuance_sets_cookie_attributes sampleUpload
     (RegisterInput.mk [] "bob" "bob@mail.test" "pw2" "b" (some "p.png"))
     (LoginInput.mk [] "alice@mail.test" "pw")
     (JwtPayload.mk 1 "alice@mail.test" (some 0))
     sampleEnv sampleEnv sampleEnv "p.png" "http://img.test/p.png"
     sampleUser sampleUser
     rfl rfl rfl rfl (by decide) (by decide) (by decide)⟩

/-- Claim C7: with a user once registered under (email, secret) — the stored
hash is the hash of the secret — every login with that pair succeeds, and two
successive successful logins persist records with distinct ids: the first
call creates the record with the pre-state allocator id, the second call (run
on the post-state, whose directory is unchanged) creates the successor id. -/
theorem login_repeats_with_distinct_record_ids
    (env : AuthEnv) (email secret : String) (u : User)
    (hfind : findByEmail env.users email = some u)
    (hpw : u.password = hashPassword secret) :
    (∃ resp1, (login { validationErrors := [], email := email, password := secret } env).result =
       HttpResult.ok resp1) ∧
    (login { validationErrors := [], email := email, password := secret } env).events =
      [Event.recordCreated env.store.nextId] ∧
    (∃ resp2, (login { validationErrors := [], email := email, password := secret }
       ((login { validationErrors := [], email := email, password := secret } env).env)).result =
       HttpResult.ok resp2) ∧
    (login { validationErrors := [], email := email, password := secret }
       ((login { validationErrors := [], email := email, password := secret } env).env)).events =
      [Event.recordCreated (env.store.nextId + 1)] ∧
    env.store.nextId ≠ env.store.nextId + 1 := by
  have hcmp : comparePassword secret u.password = true := by
    simp [comparePassword, hpw]
  refine ⟨?_, ?_, ?_, ?_, Nat.ne_of_lt (Nat.lt_succ_self _)⟩
  · simp [login, hfind, hcmp]
  · simp [login, hfind, hcmp, persistRefreshToken, RefreshTokenStore.create]
  · simp [login, hfind, hcmp, persistRefreshToken, RefreshTokenStore.create]
  · simp [login, hfind, hcmp, persistRefreshToken, RefreshTokenStore.create]

/-- Closed instance of login_repeats_with_distinct_record_ids. -/
theorem login_repeats_with_distinct_record_ids_witness :
    (findByEmail sampleEnv.users "alice@mail.test" = some sampleUser ∧
      sampleUser.password = hashPassword "pw") ∧
    ((∃ resp1, (login { validationErrors := [], email := "alice@mail.test", password := "pw" } sampleEnv).result =
        HttpResult.ok resp1) ∧
     (login { validationErrors := [], email := "alice@mail.test", password := "pw" } sampleEnv).events =
       [Event.recordCreated sampleEnv.store.nextId] ∧
     (∃ resp2, (login { validationErrors := [], email := "alice@mail.test", password := "pw" }
        ((login { validationErrors := [], email := "alice@mail.test", password := "pw" } sampleEnv).env)).result =
        HttpResult.ok resp2) ∧
     (login { validationErrors := [], email := "alice@mail.test", password := "pw" }
        ((login { validationErrors := [], email := "alice@mail.test", password := "pw" } sampleEnv).env)).events =
       [Event.recordCreated (sampleEnv.store.nextId + 1)] ∧
     sampleEnv.store.nextId ≠ sampleEnv.store.nextId + 1) :=
  ⟨⟨by decide, by decide⟩,
   login_repeats_with_distinct_record_ids sampleEnv "alice@mail.test" "pw"
     sampleUser (by decide) (by decide)⟩
